import Mathlib

/-!
# zipper: a wrapper around Go's `archive/zip`

Shallow embedding of `zipper.go` (type `ZipFile`, methods `Create`, `Open`,
`Close`, `AddFile`, `GetFileList`).  The program only sequences calls into the
Go standard library (`os`, `io`, `archive/zip`), so the embedding carries a small
model of those calls: a filesystem, a table of `*os.File` objects, a table of
`*zip.Writer` objects and a log of the library calls made.  Every method is
explicit state passing over that `World`.
-/

namespace Zipper

/-! ## Go error values -/

/-- Values of Go's `error` interface that reach this program.  `new text` is
the value of `errors.New(text)`; `errClosed` is `os.ErrClosed`, `errInvalid`
is `os.ErrInvalid`, `errFormat` is `zip.ErrFormat`, `errno` a `syscall.Errno`
and `pathError` a `*fs.PathError` wrapping another error. -/
inductive Err where
  | errClosed
  | errInvalid
  | errFormat
  | errno (code : Nat)
  | pathError (op : String) (path : String) (err : Err)
  | new (text : String)
  deriving DecidableEq, Repr

/-- The errno of "no such file or directory". -/
def ENOENT : Nat := 2

/-- Go's `errors.Is(err, os.ErrClosed)`: the chain of `err` is unwrapped
(`*fs.PathError` unwraps to the error it carries) until `os.ErrClosed` is met.
An `errors.New` value is only equal to itself, so it never matches. -/
def isErrClosed : Err → Bool
  | .errClosed => true
  | .pathError _ _ err => isErrClosed err
  | _ => false

/-! ## Archive data -/

/-- The compression method constants `zip.Store` and `zip.Deflate`. -/
def Store : Nat := 0

/-- The constant `zip.Deflate`. -/
def Deflate : Nat := 8

/-- The constant `flate.BestCompression`. -/
def BestCompression : Int := 9

/-- The constant `flate.DefaultCompression`. -/
def DefaultCompression : Int := -1

/-- The `zip.FileHeader` of an entry: its name, its compression method and
whether its mode bits say "directory". -/
structure FileHeader where
  Name : String
  Method : Nat
  dirMode : Bool
  deriving DecidableEq, Repr

/-- The result of `file.FileInfo().IsDir()` for an archive entry: `archive/zip`
reports a directory when the mode bits say so or when the name ends in a
slash. -/
def FileHeader.IsDir (h : FileHeader) : Bool :=
  h.dirMode || h.Name.toList.getLast? == some '/'

/-- What a file holds, as a sequence of blocks: bytes that are no archive
structure, the local header of an entry, the (compressed) data of an entry,
which is the content of the file it was copied from, and a central directory
with its end record. -/
inductive Block where
  | raw (bytes : List Nat)
  | localHeader (h : FileHeader)
  | fileData (content : List Block)
  | centralDirectory (dir : List FileHeader)

/-- The `fs.FileInfo` of a file, as far as `zip.FileInfoHeader` reads it. -/
structure FileInfo where
  Name : String
  IsDir : Bool
  deriving DecidableEq, Repr

/-! ## The world: filesystem, file objects, writers -/

/-- The flag combinations with which this program opens files:
`O_RDONLY`, `O_WRONLY|O_APPEND` and, inside `os.Create`,
`O_RDWR|O_CREATE|O_TRUNC`. -/
inductive OpenFlag where
  | rdonly
  | wronlyAppend
  | rdwrCreateTrunc
  deriving DecidableEq, Repr

/-- The library calls the program makes; file and writer objects are named by
their index in the tables of the world. -/
inductive Call where
  | stat (name : String)
  | openFile (name : String) (flag : OpenFlag)
  | fileStat (f : Nat)
  | fileClose (f : Nat)
  | newWriter (f : Nat)
  | registerCompressor (zw : Nat)
  | createHeader (zw : Nat) (name : String)
  | copy (zw : Nat) (f : Nat)
  | writerClose (zw : Nat)
  | openReader (name : String)
  | readerClose (name : String)
  deriving DecidableEq, Repr

/-- An `*os.File` object. -/
structure OsFile where
  name : String
  flag : OpenFlag
  closed : Bool
  deriving DecidableEq, Repr

/-- A `*zip.Writer` object: the file object it writes to, the level of its
deflate compressor, the headers collected for the central directory (`dir`),
the output buffered and not yet flushed, whether the last entry is still
open (`last != nil && !last.closed`) and the `closed` flag.  The buffer is
flushed when the writer is closed; the writer's `bufio.Writer` may flush
parts of it earlier, which changes the file before `Close` only. -/
structure ZipWriter where
  out : Nat
  deflateLevel : Int
  dir : List FileHeader
  pending : List Block
  lastOpen : Bool
  closed : Bool

/-- The state the program runs in.  `fs` maps the paths that name a file to
the file's content.  `fault` gives the failures the rest of the state does not
determine (permissions, disk full, I/O errors): a call listed there fails with
the given errno.  `reader` is what `archive/zip` reads from a file whose
layout the blocks do not determine (see `readDirectory`).  `log` is the
sequence of library calls made so far. -/
structure World where
  fs : String → Option (List Block)
  files : List OsFile
  writers : List ZipWriter
  fault : Call → Option Nat
  reader : List Block → Except Err (List FileHeader)
  log : List Call

/-- Appends a call to the log. -/
def World.record (w : World) (c : Call) : World :=
  { w with log := w.log ++ [c] }

/-- The name of a file object (empty when there is no such object). -/
def World.fileName (w : World) (f : Nat) : String :=
  match w.files[f]? with
  | some o => o.name
  | none => ""

/-- The error of a call that fails by `fault`: the errno inside a
`*fs.PathError`. -/
def World.failure (w : World) (c : Call) (op : String) (path : String) : Option Err :=
  (w.fault c).map (fun n => Err.pathError op path (.errno n))

/-- The filesystem with the content of `name` replaced. -/
def setContent (fs : String → Option (List Block)) (name : String) (c : List Block) :
    String → Option (List Block) :=
  fun p => if p = name then some c else fs p

/-- The filesystem after `data` is appended to the file `name`. -/
def appendContent (fs : String → Option (List Block)) (name : String) (data : List Block) :
    String → Option (List Block) :=
  fun p => if p = name then (fs p).map (· ++ data) else fs p

/-- Drops trailing slashes from a reversed path, keeping at least one
character. -/
def trimTrailingSlashes : List Char → List Char
  | c :: d :: rest => if c = '/' then trimTrailingSlashes (d :: rest) else c :: d :: rest
  | l => l

/-- The function `basename` of package `os`, which gives `FileInfo.Name()`:
trailing slashes are removed, then the leading directory name. -/
def basename (name : String) : String :=
  match trimTrailingSlashes name.toList.reverse with
  | [] => ""
  | c :: rest => String.mk (c :: rest.takeWhile (· ≠ '/')).reverse

/-! ## Library calls -/

/-- The call `os.Stat(name)`: it fails when the path names no file, and like
every other call it can fail by `fault` on a file that exists. -/
def osStat (w : World) (name : String) : World × Except Err FileInfo :=
  let w1 := w.record (.stat name)
  match w1.failure (.stat name) "stat" name with
  | some e => (w1, .error e)
  | none =>
    match w1.fs name with
    | some _ => (w1, .ok ⟨basename name, false⟩)
    | none => (w1, .error (.pathError "stat" name (.errno ENOENT)))

/-- The call `os.OpenFile(name, flag, perm)`.  With `O_CREATE|O_TRUNC` the file
is created or emptied; without `O_CREATE` a missing file is an error.  The
result is the new file object. -/
def osOpenFile (w : World) (name : String) (flag : OpenFlag) : World × Except Err Nat :=
  let w1 := w.record (.openFile name flag)
  match w1.failure (.openFile name flag) "open" name with
  | some e => (w1, .error e)
  | none =>
    match flag, w1.fs name with
    | .rdwrCreateTrunc, _ =>
      ({ w1 with fs := setContent w1.fs name [], files := w1.files ++ [⟨name, flag, false⟩] },
        .ok w1.files.length)
    | _, none => (w1, .error (.pathError "open" name (.errno ENOENT)))
    | _, some _ =>
      ({ w1 with files := w1.files ++ [⟨name, flag, false⟩] }, .ok w1.files.length)

/-- The call `os.Create(name)`, which is
`OpenFile(name, O_RDWR|O_CREATE|O_TRUNC, 0666)`. -/
def osCreate (w : World) (name : String) : World × Except Err Nat :=
  osOpenFile w name .rdwrCreateTrunc

/-- The method `(*os.File).Stat`.  The result is `none` when `f` is no object of
this world. -/
def fileStat (w : World) (f : Nat) : Option (World × Except Err FileInfo) :=
  match w.files[f]? with
  | none => none
  | some o =>
    let w1 := w.record (.fileStat f)
    if o.closed then some (w1, .error (.pathError "stat" o.name .errClosed))
    else
      match w1.failure (.fileStat f) "stat" o.name with
      | some e => some (w1, .error e)
      | none => some (w1, .ok ⟨basename o.name, false⟩)

/-- The method `(*os.File).Close` on a non-nil file: a second close reports
`os.ErrClosed` inside a `*fs.PathError`; the descriptor is released also when
the close reports a failure. -/
def fileClose (w : World) (f : Nat) : Option (World × Option Err) :=
  match w.files[f]? with
  | none => none
  | some o =>
    let w1 := w.record (.fileClose f)
    if o.closed then some (w1, some (.pathError "close" o.name .errClosed))
    else
      some ({ w1 with files := w1.files.set f { o with closed := true } },
        w1.failure (.fileClose f) "close" o.name)

/-- The function `zip.FileInfoHeader`: name and mode are taken from the file
info, the method is left at its zero value; it reports no error. -/
def zipFileInfoHeader (fi : FileInfo) : Except Err FileHeader :=
  .ok ⟨fi.Name, Store, fi.IsDir⟩

/-- The function `zip.NewWriter(f)`: a new writer on the file object `f`. -/
def zipNewWriter (w : World) (f : Nat) : World × Nat :=
  let w1 := w.record (.newWriter f)
  ({ w1 with writers := w1.writers ++ [⟨f, DefaultCompression, [], [], false, false⟩] },
    w1.writers.length)

/-- The method `(*zip.Writer).RegisterCompressor(zip.Deflate, comp)` for the
compressor `flate.NewWriter(out, level)`. -/
def registerCompressor (w : World) (zw : Nat) (level : Int) : Option World :=
  match w.writers[zw]? with
  | none => none
  | some x =>
    let w1 := w.record (.registerCompressor zw)
    some { w1 with writers := w1.writers.set zw { x with deflateLevel := level } }

/-- The method `(*zip.Writer).CreateHeader(fh)`: the header joins the writer's
directory, the local header is written to the buffer and the entry becomes the
open last entry.  The result is the sink for the entry's bytes. -/
def createHeader (w : World) (zw : Nat) (fh : FileHeader) : Option (World × Except Err Nat) :=
  match w.writers[zw]? with
  | none => none
  | some x =>
    let w1 := w.record (.createHeader zw fh.Name)
    match w1.failure (.createHeader zw fh.Name) "write" (w1.fileName x.out) with
    | some e => some (w1, .error e)
    | none =>
      let x1 : ZipWriter :=
        { x with dir := x.dir ++ [fh], pending := x.pending ++ [.localHeader fh], lastOpen := true }
      some ({ w1 with writers := w1.writers.set zw x1 }, .ok zw)

/-- The call `io.Copy(writer, file)` for the sink of an entry of writer `zw`:
the whole content of the file is read and written to the entry. -/
def ioCopy (w : World) (zw : Nat) (f : Nat) : Option (World × Except Err Unit) :=
  match w.writers[zw]?, w.files[f]? with
  | some x, some o =>
    let w1 := w.record (.copy zw f)
    match w1.failure (.copy zw f) "read" o.name with
    | some e => some (w1, .error e)
    | none =>
      let x1 : ZipWriter :=
        { x with pending := x.pending ++ [.fileData ((w1.fs o.name).getD [])] }
      some ({ w1 with writers := w1.writers.set zw x1 }, .ok ())
  | _, _ => none

/-- The method `(*zip.Writer).Close` on a non-nil writer.  It first finishes
the open last entry; then a writer that is already closed reports
`errors.New("zip: writer closed twice")`; otherwise the writer is marked
closed, the central directory is written and the buffer is flushed to the
underlying file, which fails with `os.ErrClosed` inside a `*fs.PathError` when
that file is closed. -/
def writerClose (w : World) (zw : Nat) : Option (World × Option Err) :=
  match w.writers[zw]? with
  | none => none
  | some x =>
    let w1 := w.record (.writerClose zw)
    let failure := w1.failure (.writerClose zw) "write" (w1.fileName x.out)
    if x.lastOpen && failure.isSome then some (w1, failure)
    else if x.closed then
      some ({ w1 with writers := w1.writers.set zw { x with lastOpen := false } },
        some (.new "zip: writer closed twice"))
    else
      let x1 : ZipWriter := { x with lastOpen := false, closed := true }
      let w2 : World := { w1 with writers := w1.writers.set zw x1 }
      match failure with
      | some e => some (w2, some e)
      | none =>
        match w2.files[x.out]? with
        | none => none
        | some o =>
          if o.closed then some (w2, some (.pathError "write" o.name .errClosed))
          else
            let x2 : ZipWriter := { x1 with pending := [] }
            some ({ w2 with
                fs := appendContent w2.fs o.name (x.pending ++ [.centralDirectory x.dir]),
                writers := w2.writers.set zw x2 },
              none)

/-- The headers of the local-header blocks of a content, in order. -/
def localHeaders : List Block → List FileHeader
  | [] => []
  | .localHeader h :: rest => h :: localHeaders rest
  | _ :: rest => localHeaders rest

/-- Whether a block is part of an entry as a writer lays it down: a local
header or entry data. -/
def Block.isEntryPart : Block → Bool
  | .localHeader _ => true
  | .fileData _ => true
  | _ => false

/-- The directory of a file that is exactly one archive, from its first byte
to its last: the entries whose local headers the directory lists, followed by
the central directory and nothing else. -/
def singleArchive (content : List Block) : Option (List FileHeader) :=
  match content.getLast? with
  | some (.centralDirectory dir) =>
    if content.dropLast.all Block.isEntryPart && localHeaders content.dropLast == dir then
      some dir
    else none
  | _ => none

/-- What the reader of `archive/zip` finds in a file.  A file of zero bytes
has no end record and is rejected with `zip.ErrFormat`; a file that is exactly
one archive yields the archive's directory, in the order stored.  For every
other layout (bytes before or after an archive, several archives written one
after the other) what the library finds depends on offsets and sizes that the
blocks do not carry, and the result is the one the world's `reader` gives. -/
def readDirectory (w : World) (content : List Block) : Except Err (List FileHeader) :=
  match content with
  | [] => .error .errFormat
  | _ :: _ =>
    match singleArchive content with
    | some dir => .ok dir
    | none => w.reader content

/-- The function `zip.OpenReader(name)`: the file must exist and is read by
`readDirectory`. -/
def zipOpenReader (w : World) (name : String) : World × Except Err (List FileHeader) :=
  let w1 := w.record (.openReader name)
  match w1.failure (.openReader name) "open" name with
  | some e => (w1, .error e)
  | none =>
    match w1.fs name with
    | none => (w1, .error (.pathError "open" name (.errno ENOENT)))
    | some content => (w1, readDirectory w1 content)

/-- The method `(*zip.ReadCloser).Close`, which closes the file the reader
opened. -/
def readerClose (w : World) (name : String) : World × Option Err :=
  let w1 := w.record (.readerClose name)
  (w1, w1.failure (.readerClose name) "close" name)

/-! ## The program -/

/-- The struct `ZipFile`; a nil pointer is `none`. -/
structure ZipFile where
  fileHandle : Option Nat
  writer : Option Nat
  FileName : String
  deriving DecidableEq, Repr

/-- The method `Create` (value receiver).  The result `none` stands for a run
that is no run of the Go program (an object missing from the world). -/
def Create (w : World) (z : ZipFile) (force : Bool) : Option (World × Option Err) :=
  match osStat w z.FileName, force with
  | (w1, .ok _), false => some (w1, none)
  | (w1, _), _ =>
    match osCreate w1 z.FileName with
    | (w2, .error err) => some (w2, some err)
    | (w2, .ok newZipFile) =>
      -- defer newZipFile.Close()
      match fileClose w2 newZipFile with
      | none => none
      | some (w3, _) => some (w3, none)

/-- The method `Open` (pointer receiver): the result carries the struct after
the call. -/
def Open (w : World) (z : ZipFile) : Option (World × ZipFile × Option Err) :=
  match osStat w z.FileName with
  | (w1, .error _) => some (w1, z, some (.new "zip file does not exist"))
  | (w1, .ok _) =>
    match osOpenFile w1 z.FileName .wronlyAppend with
    | (w2, .error _) => some (w2, z, some (.new "error opening zip file"))
    | (w2, .ok zipFile) =>
      let z1 := { z with fileHandle := some zipFile }
      match zipNewWriter w2 zipFile with
      | (w3, zipWriter) =>
        match registerCompressor w3 zipWriter BestCompression with
        | none => none
        | some w4 => some (w4, { z1 with writer := some zipWriter }, none)

/-- The condition `err != nil && !errors.Is(err, os.ErrClosed)` of `Close`. -/
def notClosedError : Option Err → Bool
  | some err => !isErrClosed err
  | none => false

/-- The method `(*os.File).Close` on a pointer that may be nil: a nil file
returns `os.ErrInvalid`. -/
def filePtrClose (w : World) : Option Nat → Option (World × Option Err)
  | none => some (w, some .errInvalid)
  | some f => fileClose w f

/-- The method `Close` (pointer receiver): the result carries the struct after
the call.  A nil `writer` is dereferenced by `(*zip.Writer).Close`, a panic
(`none`). -/
def Close (w : World) (z : ZipFile) : Option (World × ZipFile × Option Err) :=
  match z.writer with
  | none => none
  | some zw =>
    match writerClose w zw with
    | none => none
    | some (w1, err) =>
      if notClosedError err then some (w1, z, err)
      else
        match filePtrClose w1 z.fileHandle with
        | none => none
        | some (w2, err2) =>
          if notClosedError err2 then some (w2, z, err2) else some (w2, z, none)

/-- The part of `AddFile` that runs after `defer fileToAdd.Close()`. -/
def addFileBody (w1 : World) (z : ZipFile) (fileToAdd : Nat) : Option (World × Option Err) :=
  match fileStat w1 fileToAdd with
  | none => none
  | some (w2, .error _) => some (w2, some (.new "error getting file info for the file to add"))
  | some (w2, .ok fileInfo) =>
    match zipFileInfoHeader fileInfo with
    | .error _ => some (w2, some (.new "error determining header for the file to add"))
    | .ok header =>
      let header := { header with Method := Deflate }
      match z.writer with
      | none => none
      | some zw =>
        match createHeader w2 zw header with
        | none => none
        | some (w3, .error _) =>
          some (w3, some (.new "error creating header for the file to add"))
        | some (w3, .ok writer) =>
          match ioCopy w3 writer fileToAdd with
          | none => none
          | some (w4, .error err) => some (w4, some err)
          | some (w4, .ok _) => some (w4, none)

/-- The method `AddFile` (value receiver).  A nil `writer` is dereferenced by
`CreateHeader`, a panic (`none`). -/
def AddFile (w : World) (z : ZipFile) (fileName : String) : Option (World × Option Err) :=
  match osOpenFile w fileName .rdonly with
  | (w1, .error _) => some (w1, some (.new "error opening file to add"))
  | (w1, .ok fileToAdd) =>
    match addFileBody w1 z fileToAdd with
    | none => none
    | some (w5, r) =>
      -- defer fileToAdd.Close()
      match fileClose w5 fileToAdd with
      | none => none
      | some (w6, _) => some (w6, r)

/-- The loop of `GetFileList` over `zipFile.File`: directories are skipped,
every other name is appended. -/
def collectNames (files : List FileHeader) : List String :=
  files.foldl (fun list file => if file.IsDir then list else list ++ [file.Name]) []

/-- The method `GetFileList` (value receiver).  The list is `none` where the
Go code returns `nil`. -/
def GetFileList (w : World) (z : ZipFile) : World × Option (List String) × Option Err :=
  if z.fileHandle.isSome then
    (w, none, some (.new "error getting file list, zip file is open for writing"))
  else
    match zipOpenReader w z.FileName with
    | (w1, .error _) => (w1, none, some (.new "error opening zip file for reading"))
    | (w1, .ok files) =>
      -- defer zipFile.Close()
      match readerClose w1 z.FileName with
      | (w2, _) => (w2, some (collectNames files), none)

/-! ## Call sequences and sample states -/

/-- The call `AddFile` on each source in turn, with the errors returned. -/
def addFiles (w : World) (z : ZipFile) : List String → Option (World × List (Option Err))
  | [] => some (w, [])
  | s :: rest =>
    match AddFile w z s with
    | none => none
    | some (w1, e) =>
      match addFiles w1 z rest with
      | none => none
      | some (w2, es) => some (w2, e :: es)

/-- The call `Create(false)` made `n` times in a row, with the errors
returned. -/
def createTimes (z : ZipFile) : Nat → World → Option (World × List (Option Err))
  | 0, w => some (w, [])
  | n + 1, w =>
    match Create w z false with
    | none => none
    | some (w1, e) =>
      match createTimes z n w1 with
      | none => none
      | some (w2, es) => some (w2, e :: es)

/-- A world with the given files, no file or writer object, no fault, a
reader that rejects the layouts left to it, and an empty log. -/
def World.init (fs : String → Option (List Block)) : World :=
  ⟨fs, [], [], fun _ => none, fun _ => .error .errFormat, []⟩

/-- A disk without any file. -/
def emptyDisk : World := World.init (fun _ => none)

/-- A disk with an empty file `a.zip` and two source files. -/
def sampleDisk : World :=
  World.init (fun p =>
    if p = "a.zip" then some []
    else if p = "dir/x.txt" then some [.raw [104, 105]]
    else if p = "y.txt" then some []
    else none)

/-- A disk whose file `b.zip` is an archive with a directory entry between
two file entries. -/
def archiveDisk : World :=
  World.init (fun p =>
    if p = "b.zip" then
      some [.localHeader ⟨"b.txt", Deflate, false⟩, .fileData [.raw [98]],
        .localHeader ⟨"sub/", Store, true⟩,
        .localHeader ⟨"a.txt", Deflate, false⟩, .fileData [.raw [97]],
        .centralDirectory [⟨"b.txt", Deflate, false⟩, ⟨"sub/", Store, true⟩,
          ⟨"a.txt", Deflate, false⟩]]
    else none)

/-- A new handle for `name`. -/
def ZipFile.new (name : String) : ZipFile := ⟨none, none, name⟩

/-- The world `sampleDisk` after `Open` on a new handle for `a.zip`. -/
def sampleOpened : World :=
  { sampleDisk with
    files := [⟨"a.zip", .wronlyAppend, false⟩]
    writers := [⟨0, BestCompression, [], [], false, false⟩]
    log := [.stat "a.zip", .openFile "a.zip" .wronlyAppend, .newWriter 0,
      .registerCompressor 0] }

/-- The handle for `a.zip` after that `Open`. -/
def sampleHandle : ZipFile := ⟨some 0, some 0, "a.zip"⟩

/-- The world `emptyDisk` after `Create(false)` on a new handle for `a.zip`. -/
def sampleCreated : World :=
  { emptyDisk with
    fs := setContent emptyDisk.fs "a.zip" []
    files := [⟨"a.zip", .rdwrCreateTrunc, true⟩]
    log := [.stat "a.zip", .openFile "a.zip" .rdwrCreateTrunc, .fileClose 0] }

/-- A disk without any file on which every call that can fail by `fault`
fails with errno 13 (permission denied). -/
def deniedDisk : World :=
  { emptyDisk with fault := fun _ => some 13 }

/-- The disk `sampleDisk` on which `os.Stat` fails with errno 5 (I/O error)
and every other call works. -/
def statFailDisk : World :=
  { sampleDisk with
    fault := fun c =>
      match c with
      | .stat _ => some 5
      | _ => none }

/-- The disk `sampleDisk` on which every call that can fail by `fault` fails
with errno 13 (permission denied). -/
def deniedFiles : World :=
  { sampleDisk with fault := fun _ => some 13 }

/-- The disk `archiveDisk` on which closing a file or a reader fails with
errno 5 (I/O error). -/
def closeFailDisk : World :=
  { archiveDisk with
    fault := fun c =>
      match c with
      | .fileClose _ => some 5
      | .readerClose _ => some 5
      | _ => none }

/-- The world `sampleOpened` after the file of the session has been closed
behind the writer. -/
def staleOpened : World :=
  { sampleOpened with files := [⟨"a.zip", .wronlyAppend, true⟩] }

/-- A disk whose file `c.zip` holds two archives written one after the other,
of equal size, read by a library that finds the directory of the first. -/
def appendedDisk : World :=
  { World.init (fun p =>
      if p = "c.zip" then
        some [.localHeader ⟨"x.txt", Deflate, false⟩, .fileData [.raw [120]],
          .centralDirectory [⟨"x.txt", Deflate, false⟩],
          .localHeader ⟨"z.txt", Deflate, false⟩, .fileData [.raw [122]],
          .centralDirectory [⟨"z.txt", Deflate, false⟩]]
      else none) with
    reader := fun _ => .ok [⟨"x.txt", Deflate, false⟩] }

/-- The world `sampleOpened` with failing disk: every copy fails with errno 5
(I/O error) and closing a writer fails with errno 28 (no space left). -/
def failingOpened : World :=
  { sampleOpened with
    fault := fun c =>
      match c with
      | .copy _ _ => some 5
      | .writerClose _ => some 28
      | _ => none }

/-- The sequence `Open`, `AddFile` on each source in turn, `Close`, then
`GetFileList` on the handle as `Close` left it and `GetFileList` on a new
handle for the same path.  The result holds the errors of the writing calls
and the two listings. -/
def roundTrip (w : World) (z : ZipFile) (srcs : List String) :
    Option (List (Option Err) × (Option (List String) × Option Err) ×
      (Option (List String) × Option Err)) :=
  match Open w z with
  | none => none
  | some (w1, z1, e1) =>
    match addFiles w1 z1 srcs with
    | none => none
    | some (w2, es) =>
      match Close w2 z1 with
      | none => none
      | some (w3, z3, e3) =>
        some (e1 :: es ++ [e3], (GetFileList w3 z3).2,
          (GetFileList w3 (ZipFile.new z.FileName)).2)

/-- The sequence `Create(force)`, then `GetFileList` on the same handle: the
error of `Create` and the listing. -/
def createThenList (w : World) (z : ZipFile) (force : Bool) :
    Option (Option Err × Option (List String) × Option Err) :=
  match Create w z force with
  | none => none
  | some (w1, e) => some (e, (GetFileList w1 z).2)

/-- The sequence `Open`, `Close`: the two errors and the handle after
`Close`. -/
def openClose (w : World) (z : ZipFile) : Option (Option Err × Option Err × ZipFile) :=
  match Open w z with
  | none => none
  | some (w1, z1, e1) =>
    match Close w1 z1 with
    | none => none
    | some (_, z2, e2) => some (e1, e2, z2)

/-- The sequence `Open`, `Close`, `Close`: the three errors. -/
def openCloseClose (w : World) (z : ZipFile) : Option (List (Option Err)) :=
  match Open w z with
  | none => none
  | some (w1, z1, e1) =>
    match Close w1 z1 with
    | none => none
    | some (w2, z2, e2) =>
      match Close w2 z2 with
      | none => none
      | some (_, _, e3) => some [e1, e2, e3]

/-! ## Lemmas -/

theorem collectNames_from (files : List FileHeader) (acc : List String) :
    files.foldl (fun list file => if file.IsDir then list else list ++ [file.Name]) acc
      = acc ++ (files.filter (fun h => !h.IsDir)).map (·.Name) := by
  induction files generalizing acc with
  | nil => simp
  | cons h t ih =>
    simp only [List.foldl_cons, ih]
    by_cases hd : h.IsDir = true
    · simp [hd]
    · simp [hd]

theorem collectNames_eq (files : List FileHeader) :
    collectNames files = (files.filter (fun h => !h.IsDir)).map (·.Name) := by
  simpa [collectNames] using collectNames_from files []

/-- The call `os.Stat` on a path without file fails. -/
theorem osStat_none (w : World) (name : String) (h : w.fs name = none) :
    ∃ e, osStat w name = (w.record (.stat name), .error e) := by
  cases hf : w.fault (.stat name) <;>
    simp [osStat, World.record, World.failure, h, hf]

/-- The call `os.Stat` that fails by `fault`. -/
theorem osStat_fault (w : World) (name : String) (n : Nat) (h : w.fault (.stat name) = some n) :
    osStat w name = (w.record (.stat name), .error (.pathError "stat" name (.errno n))) := by
  simp [osStat, World.record, World.failure, h]

/-- The call `os.Stat` on a path with a file, without fault. -/
theorem osStat_some (w : World) (name : String) (c : List Block) (h : w.fs name = some c)
    (hf : w.fault (.stat name) = none) :
    osStat w name = (w.record (.stat name), .ok ⟨basename name, false⟩) := by
  simp [osStat, World.record, World.failure, h, hf]

/-- The three ways `Open` can run. -/
theorem Open_cases (w : World) (z : ZipFile) :
    ((∃ e, osStat w z.FileName = (w.record (.stat z.FileName), .error e)) ∧
      Open w z = some (w.record (.stat z.FileName), z, some (.new "zip file does not exist"))) ∨
    (∃ n, w.fault (.openFile z.FileName .wronlyAppend) = some n ∧
      Open w z = some ((w.record (.stat z.FileName)).record (.openFile z.FileName .wronlyAppend),
        z, some (.new "error opening zip file"))) ∨
    (∃ c, w.fs z.FileName = some c ∧ w.fault (.stat z.FileName) = none ∧
      w.fault (.openFile z.FileName .wronlyAppend) = none ∧
      Open w z = some (
        { w with
          files := w.files ++ [⟨z.FileName, .wronlyAppend, false⟩]
          writers := w.writers ++ [⟨w.files.length, BestCompression, [], [], false, false⟩]
          log := w.log ++ [.stat z.FileName, .openFile z.FileName .wronlyAppend,
            .newWriter w.files.length, .registerCompressor w.writers.length] },
        ⟨some w.files.length, some w.writers.length, z.FileName⟩, none)) := by
  cases hs : w.fault (.stat z.FileName) with
  | some n =>
    left
    have h := osStat_fault w z.FileName n hs
    exact ⟨⟨_, h⟩, by simp [Open, h]⟩
  | none =>
    cases hfs : w.fs z.FileName with
    | none =>
      left
      obtain ⟨e, h⟩ := osStat_none w z.FileName hfs
      exact ⟨⟨e, h⟩, by simp [Open, h]⟩
    | some c =>
      right
      have h := osStat_some w z.FileName c hfs hs
      cases hf : w.fault (.openFile z.FileName .wronlyAppend) with
      | some n =>
        left
        simp [Open, h, osOpenFile, World.record, World.failure, hfs, hf]
      | none =>
        right
        simp [Open, h, osOpenFile, zipNewWriter, registerCompressor, World.record,
          World.failure, hfs, hf]

/-- A successful `Open` leaves both pointers of the handle set. -/
theorem Open_success (w : World) (z : ZipFile) (w1 : World) (z1 : ZipFile)
    (h : Open w z = some (w1, z1, none)) :
    z1 = ⟨some w.files.length, some w.writers.length, z.FileName⟩ := by
  rcases Open_cases w z with ⟨_, h1⟩ | ⟨_, _, h1⟩ | ⟨_, _, _, _, h1⟩ <;>
    rw [h1] at h <;> simp at h
  exact h.2.symm

/-- The method `Close` never assigns to the struct: the handle it leaves is
the handle it was called on. -/
theorem Close_keeps_handle (w : World) (z : ZipFile) (w1 : World) (z1 : ZipFile)
    (e : Option Err) (h : Close w z = some (w1, z1, e)) : z1 = z := by
  unfold Close at h
  split at h
  · simp at h
  · split at h
    · simp at h
    · split at h
      · simp at h; exact h.2.1.symm
      · split at h
        · simp at h
        · split at h <;> (simp at h; exact h.2.1.symm)

/-- How `Create` runs when it does not keep the file: the result is that of
`os.Create` and the deferred close, whatever `os.Stat` returned. -/
theorem Create_reaches_osCreate (w : World) (z : ZipFile) (force : Bool) (w1 : World)
    (r : Except Err FileInfo) (hs : osStat w z.FileName = (w1, r))
    (hreach : force = true ∨ ∃ e, r = .error e) :
    Create w z force =
      match osCreate w1 z.FileName with
      | (w2, .error err) => some (w2, some err)
      | (w2, .ok newZipFile) =>
        match fileClose w2 newZipFile with
        | none => none
        | some (w3, _) => some (w3, none) := by
  rcases hreach with hforce | ⟨e, he⟩
  · subst hforce
    cases r <;> simp [Create, hs]
  · subst he
    cases force <;> simp [Create, hs]

/-- What `Create` leaves when it has to create the file and succeeds. -/
theorem Create_fresh (w : World) (z : ZipFile) (force : Bool) (w1 : World)
    (hfresh : w.fs z.FileName = none ∨ force = true)
    (h : Create w z force = some (w1, none)) :
    w1.fs = setContent w.fs z.FileName [] ∧ w1.fault = w.fault := by
  have hw : (osStat w z.FileName).1 = w.record (.stat z.FileName) := by
    cases hf : w.fault (.stat z.FileName) <;> cases hfs : w.fs z.FileName <;>
      simp [osStat, World.record, World.failure, hf, hfs]
  have hreach : force = true ∨ ∃ e, (osStat w z.FileName).2 = .error e := by
    rcases hfresh with hnone | hforce
    · right
      obtain ⟨e, he⟩ := osStat_none w z.FileName hnone
      exact ⟨e, by rw [he]⟩
    · exact Or.inl hforce
  have hrun := Create_reaches_osCreate w z force (w.record (.stat z.FileName))
    (osStat w z.FileName).2 (by rw [← hw]) hreach
  rw [hrun] at h
  cases hf : w.fault (.openFile z.FileName .rdwrCreateTrunc) with
  | some n =>
    simp [osCreate, osOpenFile, World.record, World.failure, hf] at h
  | none =>
    simp [osCreate, osOpenFile, fileClose, World.record, World.failure, hf] at h
    subst h
    exact ⟨rfl, rfl⟩

/-- What `Open` followed by `Close` leaves on disk when both succeed: the
central directory of an archive without entries is appended to the file. -/
theorem Close_after_Open (w : World) (z : ZipFile) (w1 : World) (z1 : ZipFile) (w2 : World)
    (z2 : ZipFile) (hopen : Open w z = some (w1, z1, none))
    (hclose : Close w1 z1 = some (w2, z2, none)) :
    w2.fs = appendContent w.fs z.FileName [.centralDirectory []] ∧ w2.fault = w.fault := by
  rcases Open_cases w z with ⟨_, h1⟩ | ⟨_, _, h1⟩ | ⟨c, hc, _, hf, h1⟩ <;>
    rw [h1] at hopen <;> simp at hopen
  obtain ⟨hw1, hz1⟩ := hopen
  subst hw1 hz1
  cases hwc : w.fault (.writerClose w.writers.length) with
  | some n =>
    simp [Close, writerClose, World.record, World.failure, World.fileName, hwc,
      notClosedError, isErrClosed] at hclose
  | none =>
    cases hfc : w.fault (.fileClose w.files.length) with
    | some n =>
      simp [Close, writerClose, filePtrClose, fileClose, World.record, World.failure,
        World.fileName, hwc, hfc, notClosedError, isErrClosed] at hclose
    | none =>
      simp [Close, writerClose, filePtrClose, fileClose, World.record, World.failure,
        World.fileName, hwc, hfc, notClosedError, isErrClosed] at hclose
      obtain ⟨hw2, _⟩ := hclose
      subst hw2
      exact ⟨rfl, rfl⟩

/-- The file objects are untouched by `fileStat`. -/
theorem fileStat_files (w : World) (f : Nat) (w1 : World) (r : Except Err FileInfo)
    (h : fileStat w f = some (w1, r)) : w1.files = w.files ∧ ∃ o, w.files[f]? = some o := by
  unfold fileStat at h
  cases ho : w.files[f]? with
  | none => simp [ho] at h
  | some o =>
    simp only [ho] at h
    refine ⟨?_, o, rfl⟩
    split at h
    · simp at h; rw [← h.1]; rfl
    · split at h <;> (simp at h; rw [← h.1]; rfl)

/-- The file objects are untouched by `createHeader`. -/
theorem createHeader_files (w : World) (zw : Nat) (fh : FileHeader) (w1 : World)
    (r : Except Err Nat) (h : createHeader w zw fh = some (w1, r)) : w1.files = w.files := by
  unfold createHeader at h
  cases hx : w.writers[zw]? with
  | none => simp [hx] at h
  | some x =>
    simp only [hx] at h
    split at h <;> (simp at h; rw [← h.1]; rfl)

/-- The file objects are untouched by `ioCopy`. -/
theorem ioCopy_files (w : World) (zw : Nat) (f : Nat) (w1 : World)
    (r : Except Err Unit) (h : ioCopy w zw f = some (w1, r)) : w1.files = w.files := by
  cases hx : w.writers[zw]? with
  | none => simp [ioCopy, hx] at h
  | some x =>
    cases ho : w.files[f]? with
    | none => simp [ioCopy, hx, ho] at h
    | some o =>
      cases hf : w.fault (.copy zw f) <;>
        (simp [ioCopy, hx, ho, World.failure, World.record, hf] at h; rw [← h.1])

/-- The deferred close of a file object that exists returns. -/
theorem fileClose_returns (w : World) (f : Nat) (o : OsFile) (h : w.files[f]? = some o) :
    ∃ w1 r, fileClose w f = some (w1, r) := by
  unfold fileClose
  simp only [h]
  split <;> exact ⟨_, _, rfl⟩

/-- A handle that `Open` has set up keeps its file handle through `Close`, so
`GetFileList` on it returns the conflict error also after `Close`, whatever
`Close` returned and whatever was added in between. -/
theorem GetFileList_after_Close (w : World) (z : ZipFile) (w1 : World) (z1 : ZipFile)
    (w2 w3 : World) (z3 : ZipFile) (e : Option Err)
    (hopen : Open w z = some (w1, z1, none)) (hclose : Close w2 z1 = some (w3, z3, e)) :
    GetFileList w3 z3 =
      (w3, none, some (.new "error getting file list, zip file is open for writing")) := by
  have hz3 := Close_keeps_handle w2 z1 w3 z3 e hclose
  have hz1 := Open_success w z w1 z1 hopen
  subst hz3 hz1
  simp [GetFileList]

/-- After a successful `Open`, a `Close` that returns is always followed by a
`Close` that returns the writer's error "zip: writer closed twice". -/
theorem second_Close_fails (w : World) (z : ZipFile) (w1 : World) (z1 : ZipFile)
    (w2 : World) (z2 : ZipFile) (e : Option Err)
    (hopen : Open w z = some (w1, z1, none)) (hclose : Close w1 z1 = some (w2, z2, e)) :
    ∃ w3, Close w2 z2 = some (w3, z2, some (.new "zip: writer closed twice")) := by
  have hz2 := Close_keeps_handle w1 z1 w2 z2 e hclose
  subst hz2
  rcases Open_cases w z with ⟨_, h1⟩ | ⟨_, _, h1⟩ | ⟨c, hc, _, hf, h1⟩ <;>
    rw [h1] at hopen <;> simp at hopen
  obtain ⟨hw1, hz1⟩ := hopen
  subst hw1 hz1
  cases hwc : w.fault (.writerClose w.writers.length) with
  | some n =>
    simp [Close, writerClose, World.record, World.failure, World.fileName, hwc,
      notClosedError, isErrClosed] at hclose
    obtain ⟨hw2, _⟩ := hclose
    subst hw2
    simp [Close, writerClose, World.record, World.failure, World.fileName, hwc,
      notClosedError, isErrClosed]
  | none =>
    cases hfc : w.fault (.fileClose w.files.length) with
    | some n =>
      simp [Close, writerClose, filePtrClose, fileClose, World.record, World.failure,
        World.fileName, hwc, hfc, notClosedError, isErrClosed] at hclose
      obtain ⟨hw2, _⟩ := hclose
      subst hw2
      simp [Close, writerClose, World.record, World.failure, World.fileName, hwc,
        notClosedError, isErrClosed]
    | none =>
      simp [Close, writerClose, filePtrClose, fileClose, World.record, World.failure,
        World.fileName, hwc, hfc, notClosedError, isErrClosed] at hclose
      obtain ⟨hw2, _⟩ := hclose
      subst hw2
      simp [Close, writerClose, World.record, World.failure, World.fileName, hwc,
        notClosedError, isErrClosed]


/-! ## Claims -/

/-- C2. On a handle on which `Open` has succeeded, `GetFileList` returns the
conflict error and no list, whatever the state of the world (so also when
the archive file is missing or invalid), and it makes no library call at all:
the world, log included, is returned as it was, so nothing is opened for
reading. -/
theorem GetFileList_conflict (w : World) (z : ZipFile) (w1 : World) (z1 : ZipFile)
    (hopen : Open w z = some (w1, z1, none)) (w2 : World) :
    GetFileList w2 z1 =
        (w2, none, some (.new "error getting file list, zip file is open for writing")) ∧
      (GetFileList w2 z1).1.log = w2.log := by
  have hz := Open_success w z w1 z1 hopen
  subst hz
  simp [GetFileList]

theorem GetFileList_conflict_witness :
    Open sampleDisk (ZipFile.new "a.zip") = some (sampleOpened, sampleHandle, none) ∧
      GetFileList sampleOpened sampleHandle =
        (sampleOpened, none,
          some (.new "error getting file list, zip file is open for writing")) ∧
      GetFileList emptyDisk sampleHandle =
        (emptyDisk, none, some (.new "error getting file list, zip file is open for writing")) :=
  ⟨rfl,
    (GetFileList_conflict sampleDisk (ZipFile.new "a.zip") sampleOpened sampleHandle rfl
      sampleOpened).1,
    (GetFileList_conflict sampleDisk (ZipFile.new "a.zip") sampleOpened sampleHandle rfl
      emptyDisk).1⟩

/-- C6. On a handle without file handle whose path holds an archive, that is,
a file from which `zip.OpenReader` reads the directory `dir`, `GetFileList`
returns exactly the names of the entries of `dir` that are no directories, in
the order of `dir`, and no error; the list is empty when every entry is a
directory (so also when there is no entry). -/
theorem GetFileList_filters_directory (w : World) (z : ZipFile) (w1 : World)
    (dir : List FileHeader)
    (hz : z.fileHandle = none)
    (hread : zipOpenReader w z.FileName = (w1, .ok dir)) :
    (GetFileList w z).2 = (some ((dir.filter (fun h => !h.IsDir)).map (·.Name)), none) ∧
      ((∀ h ∈ dir, h.IsDir = true) → (GetFileList w z).2 = (some [], none)) := by
  have hres : (GetFileList w z).2
      = (some ((dir.filter (fun h => !h.IsDir)).map (·.Name)), none) := by
    simp [GetFileList, hz, hread, collectNames_eq]
  refine ⟨hres, fun hall => ?_⟩
  rw [hres]
  have : dir.filter (fun h => !h.IsDir) = [] := by
    rw [List.filter_eq_nil_iff]
    intro h hh
    simp [hall h hh]
  rw [this]
  rfl

theorem GetFileList_filters_directory_witness :
    (zipOpenReader archiveDisk "b.zip").2
        = .ok [⟨"b.txt", Deflate, false⟩, ⟨"sub/", Store, true⟩, ⟨"a.txt", Deflate, false⟩] ∧
      (GetFileList archiveDisk (ZipFile.new "b.zip")).2 = (some ["b.txt", "a.txt"], none) ∧
      (zipOpenReader appendedDisk "c.zip").2 = .ok [⟨"x.txt", Deflate, false⟩] ∧
      (GetFileList appendedDisk (ZipFile.new "c.zip")).2 = (some ["x.txt"], none) :=
  ⟨rfl,
    (GetFileList_filters_directory archiveDisk (ZipFile.new "b.zip") _
      [⟨"b.txt", Deflate, false⟩, ⟨"sub/", Store, true⟩, ⟨"a.txt", Deflate, false⟩]
      rfl rfl).1,
    rfl,
    (GetFileList_filters_directory appendedDisk (ZipFile.new "c.zip") _
      [⟨"x.txt", Deflate, false⟩] rfl rfl).1⟩

/-- C7 (counterexample). The file `dir/x.txt` exists with content; where
`os.Stat` on it fails and the other calls work, `Create(false)` returns
success and leaves the file empty; where every call is denied, `Create(false)`
returns an error. -/
theorem Create_after_failed_Stat :
    statFailDisk.fs "dir/x.txt" = some [.raw [104, 105]] ∧
    (∃ w1, Create statFailDisk (ZipFile.new "dir/x.txt") false = some (w1, none) ∧
      w1.fs "dir/x.txt" = some [] ∧ w1.fs "dir/x.txt" ≠ statFailDisk.fs "dir/x.txt") ∧
    deniedFiles.fs "dir/x.txt" = some [.raw [104, 105]] ∧
    (∃ w1, Create deniedFiles (ZipFile.new "dir/x.txt") false
      = some (w1, some (.pathError "open" "dir/x.txt" (.errno 13)))) := by
  refine ⟨rfl, ⟨_, rfl, rfl, ?_⟩, rfl, ⟨_, rfl⟩⟩
  intro h
  have h2 : (some [] : Option (List Block)) = some [.raw [104, 105]] := h
  simp at h2

/-- C7 (amended). Where a file exists at the handle's path and `os.Stat`
reports it, `Create(false)` returns success after that one call and leaves
every file's content as it was; called any number of times in a row, every
call returns success and the content is still the one before the first
call. -/
theorem Create_keeps_existing (w : World) (z : ZipFile) (content : List Block)
    (hfs : w.fs z.FileName = some content)
    (hstat : w.fault (.stat z.FileName) = none) :
    Create w z false = some (w.record (.stat z.FileName), none) ∧
      (∀ n, ∃ wn, createTimes z n w = some (wn, List.replicate n none) ∧ wn.fs = w.fs ∧
        wn.fs z.FileName = some content) := by
  have one : ∀ v : World, v.fs = w.fs → v.fault = w.fault →
      Create v z false = some (v.record (.stat z.FileName), none) := by
    intro v hv hvf
    have h := osStat_some v z.FileName content (by rw [hv, hfs]) (by rw [hvf, hstat])
    simp [Create, h]
  refine ⟨one w rfl rfl, fun n => ?_⟩
  have step : ∀ (n : Nat) (v : World), v.fs = w.fs → v.fault = w.fault →
      ∃ wn, createTimes z n v = some (wn, List.replicate n none) ∧ wn.fs = w.fs := by
    intro n
    induction n with
    | zero => intro v hv _; exact ⟨v, rfl, hv⟩
    | succ k ih =>
      intro v hv hvf
      obtain ⟨wn, hrun, hwn⟩ := ih (v.record (.stat z.FileName)) hv hvf
      refine ⟨wn, ?_, hwn⟩
      simp [createTimes, one v hv hvf, hrun, List.replicate_succ]
  obtain ⟨wn, hrun, hwn⟩ := step n w rfl rfl
  exact ⟨wn, hrun, hwn, by rw [hwn, hfs]⟩

theorem Create_keeps_existing_witness :
    sampleDisk.fs "dir/x.txt" = some [.raw [104, 105]] ∧
      sampleDisk.fault (.stat "dir/x.txt") = none ∧
      Create sampleDisk (ZipFile.new "dir/x.txt") false
        = some (sampleDisk.record (.stat "dir/x.txt"), none) :=
  ⟨rfl, rfl,
    (Create_keeps_existing sampleDisk (ZipFile.new "dir/x.txt") [.raw [104, 105]] rfl rfl).1⟩

/-- C8. Where no file exists at the handle's path, `Open` returns the error
"zip file does not exist" after the one `os.Stat` call: the handle is returned
as it was and no file or writer object is created.  Whenever `Open` returns
an error, the handle is returned as it was (its writer is not bound) and no
writer object has been created; a handle without session stays without. -/
theorem Open_missing_archive (w : World) (z : ZipFile) (hfs : w.fs z.FileName = none) :
    Open w z = some (w.record (.stat z.FileName), z, some (.new "zip file does not exist")) ∧
      (w.record (.stat z.FileName)).files = w.files ∧
      (w.record (.stat z.FileName)).writers = w.writers ∧
      (∀ (v : World) (y : ZipFile) (v1 : World) (y1 : ZipFile) (e : Err),
        Open v y = some (v1, y1, some e) →
          y1 = y ∧ v1.writers = v.writers ∧
            (y.fileHandle = none → y.writer = none →
              y1.fileHandle = none ∧ y1.writer = none)) := by
  refine ⟨?_, rfl, rfl, ?_⟩
  · obtain ⟨e, he⟩ := osStat_none w z.FileName hfs
    simp [Open, he]
  · intro v y v1 y1 e h
    rcases Open_cases v y with ⟨_, h1⟩ | ⟨_, _, h1⟩ | ⟨_, _, _, _, h1⟩ <;>
      rw [h1] at h <;> simp at h
    · obtain ⟨hv, hy, _⟩ := h
      subst hv hy
      exact ⟨rfl, rfl, fun a b => ⟨a, b⟩⟩
    · obtain ⟨hv, hy, _⟩ := h
      subst hv hy
      exact ⟨rfl, rfl, fun a b => ⟨a, b⟩⟩

theorem Open_missing_archive_witness :
    emptyDisk.fs "a.zip" = none ∧
      Open emptyDisk (ZipFile.new "a.zip")
        = some (emptyDisk.record (.stat "a.zip"), ZipFile.new "a.zip",
            some (.new "zip file does not exist")) :=
  ⟨rfl, (Open_missing_archive emptyDisk (ZipFile.new "a.zip") rfl).1⟩

/-- C9. Where no file exists at the source path, `AddFile` returns the error
"error opening file to add" after the one `os.OpenFile` call, for every
handle: the files on disk, the file objects and the writers (their
directories of entries added so far and their buffers) are as they were. -/
theorem AddFile_missing_source (w : World) (z : ZipFile) (fileName : String)
    (hfs : w.fs fileName = none) :
    AddFile w z fileName
        = some (w.record (.openFile fileName .rdonly), some (.new "error opening file to add")) ∧
      (w.record (.openFile fileName .rdonly)).fs = w.fs ∧
      (w.record (.openFile fileName .rdonly)).files = w.files ∧
      (w.record (.openFile fileName .rdonly)).writers = w.writers := by
  refine ⟨?_, rfl, rfl, rfl⟩
  cases hf : w.fault (.openFile fileName .rdonly) <;>
    simp [AddFile, osOpenFile, World.record, World.failure, hfs, hf]

theorem AddFile_missing_source_witness :
    sampleOpened.fs "missing.txt" = none ∧
      AddFile sampleOpened sampleHandle "missing.txt"
        = some (sampleOpened.record (.openFile "missing.txt" .rdonly),
            some (.new "error opening file to add")) :=
  ⟨rfl, (AddFile_missing_source sampleOpened sampleHandle "missing.txt" rfl).1⟩

/-- C1 (the code at a failing input). On a disk with an empty file `a.zip` and
the sources `dir/x.txt` and `y.txt`, `Open`, both `AddFile` calls and `Close`
return success, and `GetFileList` on that same handle returns the conflict
error and no list, while a new handle for the same path lists `x.txt`, `y.txt`
(the base names, in the order added). -/
theorem roundTrip_same_handle_conflict :
    roundTrip sampleDisk (ZipFile.new "a.zip") ["dir/x.txt", "y.txt"] =
      some ([none, none, none, none],
        (none, some (.new "error getting file list, zip file is open for writing")),
        (some ["x.txt", "y.txt"], none)) := by
  decide

/-- C3 (the code at a failing input). After `Open` on the empty file `a.zip`,
the first `Close` returns success and the second returns the error
"zip: writer closed twice" of `(*zip.Writer).Close`, which is not
`os.ErrClosed`. -/
theorem Close_twice_second_fails :
    openCloseClose sampleDisk (ZipFile.new "a.zip") =
      some [none, none, some (.new "zip: writer closed twice")] ∧
    isErrClosed (.new "zip: writer closed twice") = false := by
  decide

/-- C4 (the code at a failing input). After `Open` and `Close` have both
returned success, the handle still holds the file handle and the writer that
`Open` set. -/
theorem Close_leaves_session_fields :
    openClose sampleDisk (ZipFile.new "a.zip") = some (none, none, ⟨some 0, some 0, "a.zip"⟩) ∧
    (⟨some 0, some 0, "a.zip"⟩ : ZipFile) ≠ ZipFile.new "a.zip" := by
  decide

/-- C5 (counterexample). On a disk without files, `Create(false)` for `a.zip`
succeeds, and `GetFileList` on the same new handle then returns an error and
no list, not the empty sequence; the same holds after `Create(true)` on the
path of an existing archive. -/
theorem GetFileList_after_Create_fails :
    createThenList emptyDisk (ZipFile.new "a.zip") false
      = some (none, none, some (.new "error opening zip file for reading")) ∧
    createThenList archiveDisk (ZipFile.new "b.zip") true
      = some (none, none, some (.new "error opening zip file for reading")) ∧
    createThenList emptyDisk (ZipFile.new "a.zip") false ≠ some (none, some [], none) := by
  refine ⟨by decide, by decide, by decide⟩

/-- C5 (amended). When `Create` has just produced a fresh file at the path (no
file was there, or `force` was true) the file is empty, which is no archive:
`GetFileList` on a handle without session returns the error
"error opening zip file for reading" and no list.  Once `Open` and `Close`
have then both succeeded with nothing added, the file holds the central
directory of an archive without entries, and `GetFileList` on the handle
without session returns the empty sequence and no error, provided the
archive opens for reading. -/
theorem GetFileList_after_fresh_Create (w : World) (z : ZipFile) (force : Bool) (w1 : World)
    (hz : z.fileHandle = none)
    (hfresh : w.fs z.FileName = none ∨ force = true)
    (hcreate : Create w z force = some (w1, none)) :
    w1.fs z.FileName = some [] ∧
      (GetFileList w1 z).2 = (none, some (.new "error opening zip file for reading")) ∧
      (∀ (w2 : World) (z2 : ZipFile) (w3 : World) (z3 : ZipFile),
        Open w1 z = some (w2, z2, none) → Close w2 z2 = some (w3, z3, none) →
        w3.fault (.openReader z.FileName) = none →
          w3.fs z.FileName = some [.centralDirectory []] ∧
            (GetFileList w3 z).2 = (some [], none)) := by
  obtain ⟨hfs1, _⟩ := Create_fresh w z force w1 hfresh hcreate
  have hempty : w1.fs z.FileName = some [] := by simp [hfs1, setContent]
  refine ⟨hempty, ?_, ?_⟩
  · cases hr : w1.fault (.openReader z.FileName) <;>
      simp [GetFileList, hz, zipOpenReader, readDirectory, World.record, World.failure, hr,
        hempty]
  · intro w2 z2 w3 z3 hopen hclose hread
    obtain ⟨hfs3, _⟩ := Close_after_Open w1 z w2 z2 w3 z3 hopen hclose
    have hdir : w3.fs z.FileName = some [.centralDirectory []] := by
      simp [hfs3, appendContent, hempty]
    refine ⟨hdir, ?_⟩
    simp [GetFileList, hz, zipOpenReader, readDirectory, singleArchive, localHeaders,
      World.record, World.failure, hread, hdir, collectNames, readerClose]

theorem GetFileList_after_fresh_Create_witness :
    emptyDisk.fs "a.zip" = none ∧
      Create emptyDisk (ZipFile.new "a.zip") false = some (sampleCreated, none) ∧
      (GetFileList sampleCreated (ZipFile.new "a.zip")).2
        = (none, some (.new "error opening zip file for reading")) ∧
      (∃ w2 z2 w3 z3, Open sampleCreated (ZipFile.new "a.zip") = some (w2, z2, none) ∧
        Close w2 z2 = some (w3, z3, none) ∧
        (GetFileList w3 (ZipFile.new "a.zip")).2 = (some [], none)) :=
  ⟨rfl, rfl,
    (GetFileList_after_fresh_Create emptyDisk (ZipFile.new "a.zip") false sampleCreated
      rfl (Or.inl rfl) rfl).2.1,
    ⟨_, _, _, _, rfl, rfl,
      ((GetFileList_after_fresh_Create emptyDisk (ZipFile.new "a.zip") false sampleCreated
        rfl (Or.inl rfl) rfl).2.2 _ _ _ _ rfl rfl rfl).2⟩⟩

/-- C10 (counterexample). On a disk without files, `os.Stat` inside `Open`
fails with a path error carrying ENOENT, and `Open` returns a different
error, the new error "zip file does not exist". -/
theorem Open_replaces_stat_error :
    (osStat emptyDisk "a.zip").2 = .error (.pathError "stat" "a.zip" (.errno ENOENT)) ∧
    (Open emptyDisk (ZipFile.new "a.zip")).map (·.2.2)
      = some (some (.new "zip file does not exist")) ∧
    Err.new "zip file does not exist" ≠ .pathError "stat" "a.zip" (.errno ENOENT) := by
  refine ⟨rfl, by decide, by decide⟩


/-- C10 (amended). What each operation does with the failure of each library
call inside it.
Returned unchanged: the error of `os.Create` in `Create`; in `Close` the
error of closing the writer and the error of closing the file handle, when
it is no already-closed error; in `AddFile` the error of the copy.
Suppressed: in `Close` an already-closed error of the writer or of the file
handle counts as success.
Replaced by a new error with a fixed message: `os.Stat` and `os.OpenFile` in
`Open`; `os.OpenFile`, the file's `Stat` and `CreateHeader` in `AddFile`
(`zip.FileInfoHeader` reports no error); `zip.OpenReader` in `GetFileList`.
Dropped: the error of `os.Stat` in `Create` (the run goes on to `os.Create`)
and the errors of the deferred closes in `Create`, `AddFile` and
`GetFileList`. -/
theorem errors_returned :
    -- Create: os.Create returned unchanged, os.Stat dropped
    (∀ (w : World) (z : ZipFile) (force : Bool) (w1 w2 : World) (r : Except Err FileInfo)
      (e : Err),
      osStat w z.FileName = (w1, r) → (force = true ∨ ∃ e0, r = .error e0) →
      osCreate w1 z.FileName = (w2, .error e) →
        Create w z force = some (w2, some e)) ∧
    -- Create: os.Stat and the deferred close dropped
    (∀ (w : World) (z : ZipFile) (force : Bool) (w1 w2 w3 : World) (r : Except Err FileInfo)
      (f : Nat) (rc : Option Err),
      osStat w z.FileName = (w1, r) → (force = true ∨ ∃ e0, r = .error e0) →
      osCreate w1 z.FileName = (w2, .ok f) → fileClose w2 f = some (w3, rc) →
        Create w z force = some (w3, none)) ∧
    -- Open: os.Stat replaced
    (∀ (w : World) (z : ZipFile) (w1 : World) (e : Err),
      osStat w z.FileName = (w1, .error e) →
        Open w z = some (w1, z, some (.new "zip file does not exist"))) ∧
    -- Open: os.OpenFile replaced
    (∀ (w : World) (z : ZipFile) (w1 w2 : World) (fi : FileInfo) (e : Err),
      osStat w z.FileName = (w1, .ok fi) →
      osOpenFile w1 z.FileName .wronlyAppend = (w2, .error e) →
        Open w z = some (w2, z, some (.new "error opening zip file"))) ∧
    -- Close: the writer's error returned unchanged
    (∀ (w : World) (z : ZipFile) (zw : Nat) (w1 : World) (e : Err),
      z.writer = some zw → writerClose w zw = some (w1, some e) → isErrClosed e = false →
        Close w z = some (w1, z, some e)) ∧
    -- Close: the file's error returned unchanged (a nil file handle included)
    (∀ (w : World) (z : ZipFile) (zw : Nat) (w1 w2 : World) (r : Option Err) (e : Err),
      z.writer = some zw →
      writerClose w zw = some (w1, r) → (r = none ∨ ∃ e1, r = some e1 ∧ isErrClosed e1 = true) →
      filePtrClose w1 z.fileHandle = some (w2, some e) → isErrClosed e = false →
        Close w z = some (w2, z, some e)) ∧
    -- Close: already-closed errors suppressed
    (∀ (w : World) (z : ZipFile) (zw : Nat) (w1 w2 : World) (r r2 : Option Err),
      z.writer = some zw →
      writerClose w zw = some (w1, r) → (r = none ∨ ∃ e1, r = some e1 ∧ isErrClosed e1 = true) →
      filePtrClose w1 z.fileHandle = some (w2, r2) →
      (r2 = none ∨ ∃ e2, r2 = some e2 ∧ isErrClosed e2 = true) →
        Close w z = some (w2, z, none)) ∧
    -- AddFile: os.OpenFile replaced
    (∀ (w : World) (z : ZipFile) (fileName : String) (w1 : World) (e : Err),
      osOpenFile w fileName .rdonly = (w1, .error e) →
        AddFile w z fileName = some (w1, some (.new "error opening file to add"))) ∧
    -- AddFile: the file's Stat replaced
    (∀ (w : World) (z : ZipFile) (fileName : String) (w1 w2 : World) (f : Nat) (e : Err),
      osOpenFile w fileName .rdonly = (w1, .ok f) → fileStat w1 f = some (w2, .error e) →
        ∃ w5, AddFile w z fileName
          = some (w5, some (.new "error getting file info for the file to add"))) ∧
    -- AddFile: zip.FileInfoHeader reports no error
    (∀ fi : FileInfo, zipFileInfoHeader fi = .ok ⟨fi.Name, Store, fi.IsDir⟩) ∧
    -- AddFile: CreateHeader replaced
    (∀ (w : World) (z : ZipFile) (fileName : String) (w1 w2 w3 : World) (f zw : Nat)
      (fi : FileInfo) (e : Err),
      osOpenFile w fileName .rdonly = (w1, .ok f) → fileStat w1 f = some (w2, .ok fi) →
      z.writer = some zw →
      createHeader w2 zw ⟨fi.Name, Deflate, fi.IsDir⟩ = some (w3, .error e) →
        ∃ w5, AddFile w z fileName
          = some (w5, some (.new "error creating header for the file to add"))) ∧
    -- AddFile: the copy's error returned unchanged
    (∀ (w : World) (z : ZipFile) (fileName : String) (w1 w2 w3 w4 : World) (f zw sink : Nat)
      (fi : FileInfo) (e : Err),
      osOpenFile w fileName .rdonly = (w1, .ok f) → fileStat w1 f = some (w2, .ok fi) →
      z.writer = some zw →
      createHeader w2 zw ⟨fi.Name, Deflate, fi.IsDir⟩ = some (w3, .ok sink) →
      ioCopy w3 sink f = some (w4, .error e) →
        ∃ w5, AddFile w z fileName = some (w5, some e)) ∧
    -- AddFile: the deferred close dropped
    (∀ (w : World) (z : ZipFile) (fileName : String) (w1 w5 w6 : World) (f : Nat)
      (r rc : Option Err),
      osOpenFile w fileName .rdonly = (w1, .ok f) → addFileBody w1 z f = some (w5, r) →
      fileClose w5 f = some (w6, rc) →
        AddFile w z fileName = some (w6, r)) ∧
    -- GetFileList: zip.OpenReader replaced
    (∀ (w : World) (z : ZipFile) (w1 : World) (e : Err),
      z.fileHandle = none → zipOpenReader w z.FileName = (w1, .error e) →
        GetFileList w z = (w1, none, some (.new "error opening zip file for reading"))) ∧
    -- GetFileList: the deferred close dropped
    (∀ (w : World) (z : ZipFile) (w1 w2 : World) (files : List FileHeader) (rc : Option Err),
      z.fileHandle = none → zipOpenReader w z.FileName = (w1, .ok files) →
      readerClose w1 z.FileName = (w2, rc) →
        GetFileList w z = (w2, some (collectNames files), none)) := by
  refine ⟨?_, ?_, ?_, ?_, ?_, ?_, ?_, ?_, ?_, ?_, ?_, ?_, ?_, ?_, ?_⟩
  · intro w z force w1 w2 r e hs hreach hc
    rw [Create_reaches_osCreate w z force w1 r hs hreach, hc]
  · intro w z force w1 w2 w3 r f rc hs hreach hc hcl
    rw [Create_reaches_osCreate w z force w1 r hs hreach, hc]
    simp [hcl]
  · intro w z w1 e hs
    simp [Open, hs]
  · intro w z w1 w2 fi e hs ho
    simp [Open, hs, ho]
  · intro w z zw w1 e hzw hwc hne
    simp [Close, hzw, hwc, notClosedError, hne]
  · intro w z zw w1 w2 r e hzw hwc hr hfc hne
    have hr1 : notClosedError r = false := by
      rcases hr with h0 | ⟨e1, h1, h2⟩
      · subst h0; rfl
      · subst h1; simp [notClosedError, h2]
    have hne2 : notClosedError (some e) = true := by simp [notClosedError, hne]
    simp [Close, hzw, hwc, hr1, hfc, hne2]
  · intro w z zw w1 w2 r r2 hzw hwc hr hfc hr2
    have hr1 : notClosedError r = false := by
      rcases hr with h0 | ⟨e1, h1, h2⟩
      · subst h0; rfl
      · subst h1; simp [notClosedError, h2]
    have hr3 : notClosedError r2 = false := by
      rcases hr2 with h0 | ⟨e1, h1, h2⟩
      · subst h0; rfl
      · subst h1; simp [notClosedError, h2]
    simp [Close, hzw, hwc, hr1, hfc, hr3]
  · intro w z fileName w1 e ho
    simp [AddFile, ho]
  · intro w z fileName w1 w2 f e ho hs
    obtain ⟨hf2, o, hof⟩ := fileStat_files w1 f w2 _ hs
    obtain ⟨w5, r, hcl⟩ := fileClose_returns w2 f o (by rw [hf2, hof])
    refine ⟨w5, ?_⟩
    simp [AddFile, ho, addFileBody, hs, hcl]
  · intro fi
    rfl
  · intro w z fileName w1 w2 w3 f zw fi e ho hs hzw hch
    obtain ⟨hf2, o, hof⟩ := fileStat_files w1 f w2 _ hs
    have hf3 : w3.files[f]? = some o := by
      rw [createHeader_files w2 zw _ w3 _ hch, hf2, hof]
    obtain ⟨w5, r, hcl⟩ := fileClose_returns w3 f o hf3
    refine ⟨w5, ?_⟩
    simp [AddFile, ho, addFileBody, hs, zipFileInfoHeader, hzw, hch, hcl]
  · intro w z fileName w1 w2 w3 w4 f zw sink fi e ho hs hzw hch hcp
    obtain ⟨hf2, o, hof⟩ := fileStat_files w1 f w2 _ hs
    have hf4 : w4.files[f]? = some o := by
      rw [ioCopy_files w3 sink f w4 _ hcp, createHeader_files w2 zw _ w3 _ hch, hf2, hof]
    obtain ⟨w5, r, hcl⟩ := fileClose_returns w4 f o hf4
    refine ⟨w5, ?_⟩
    simp [AddFile, ho, addFileBody, hs, zipFileInfoHeader, hzw, hch, hcp, hcl]
  · intro w z fileName w1 w5 w6 f r rc ho hb hcl
    simp [AddFile, ho, hb, hcl]
  · intro w z w1 e hz hr
    simp [GetFileList, hz, hr]
  · intro w z w1 w2 files rc hz hr hcl
    simp [GetFileList, hz, hr, hcl]

theorem errors_returned_witness :
    -- os.Stat fails (dropped), os.Create fails: its error is returned
    (∃ w2, Create deniedDisk (ZipFile.new "a.zip") false
      = some (w2, some (.pathError "open" "a.zip" (.errno 13)))) ∧
    -- os.Stat fails (dropped), the deferred close fails (dropped): success
    (∃ w3, Create closeFailDisk (ZipFile.new "a.zip") false = some (w3, none)) ∧
    -- the writer's close fails: its error is returned
    (∃ w1, Close failingOpened sampleHandle
      = some (w1, sampleHandle, some (.pathError "write" "a.zip" (.errno 28)))) ∧
    -- writer and file report already-closed errors: success
    (∃ w2, Close staleOpened sampleHandle = some (w2, sampleHandle, none)) ∧
    -- the copy fails: its error is returned
    (∃ w5, AddFile failingOpened sampleHandle "y.txt"
      = some (w5, some (.pathError "read" "y.txt" (.errno 5)))) ∧
    -- zip.OpenReader fails: replaced
    (∃ w1, GetFileList deniedDisk (ZipFile.new "a.zip")
      = (w1, none, some (.new "error opening zip file for reading"))) ∧
    -- the reader's deferred close fails (dropped): the list is returned
    (∃ w2, GetFileList closeFailDisk (ZipFile.new "b.zip")
      = (w2, some ["b.txt", "a.txt"], none)) :=
  ⟨⟨_, errors_returned.1 deniedDisk (ZipFile.new "a.zip") false _ _
      (.error (.pathError "stat" "a.zip" (.errno 13))) _ rfl (Or.inr ⟨_, rfl⟩) rfl⟩,
    ⟨_, errors_returned.2.1 closeFailDisk (ZipFile.new "a.zip") false _ _ _
      (.error (.pathError "stat" "a.zip" (.errno ENOENT))) 0
      (some (.pathError "close" "a.zip" (.errno 5))) rfl (Or.inr ⟨_, rfl⟩) rfl rfl⟩,
    ⟨_, errors_returned.2.2.2.2.1 failingOpened sampleHandle 0 _ _ rfl rfl rfl⟩,
    ⟨_, errors_returned.2.2.2.2.2.2.1 staleOpened sampleHandle 0 _ _
      (some (.pathError "write" "a.zip" .errClosed))
      (some (.pathError "close" "a.zip" .errClosed))
      rfl rfl (Or.inr ⟨_, rfl, rfl⟩) rfl (Or.inr ⟨_, rfl, rfl⟩)⟩,
    errors_returned.2.2.2.2.2.2.2.2.2.2.2.1 failingOpened sampleHandle "y.txt" _ _ _ _ 1 0 0
      ⟨"y.txt", false⟩ _ rfl rfl rfl rfl rfl,
    ⟨_, errors_returned.2.2.2.2.2.2.2.2.2.2.2.2.2.1 deniedDisk (ZipFile.new "a.zip") _
      (.pathError "open" "a.zip" (.errno 13)) rfl rfl⟩,
    ⟨_, errors_returned.2.2.2.2.2.2.2.2.2.2.2.2.2.2 closeFailDisk (ZipFile.new "b.zip") _ _
      [⟨"b.txt", Deflate, false⟩, ⟨"sub/", Store, true⟩, ⟨"a.txt", Deflate, false⟩]
      (some (.pathError "close" "b.zip" (.errno 5))) rfl rfl rfl⟩⟩

end Zipper
